import Mathlib

/-!
Verification of the version-resolution and fetch-planning logic of
`gdb/install_libcxx_printers.py` (a script that downloads the libc++ GDB
pretty-printers matching a locally installed libc++ shared object and wires
them into GDB's auto-load mechanism).

The Python source is shallowly embedded: every effect the script performs
(filesystem probes, subprocess invocations, the network fetch) is supplied by
an explicit `World` record, and each Python function becomes a Lean function
over that record.  Python exceptions become an explicit `PyExc` sum returned
through `Except`; text printed to standard output is threaded as a
`List String`.

Notes on fidelity kept throughout:
* Python's regex class `\d` is embedded as the ASCII digits, which is what
  every scanned input (grep / dpkg output) contains; the zero/one/many policy
  proved about the extractor does not depend on the digit class.
* `re.search` with the concrete patterns used by the script (a literal
  bracket around `\d+\.\d+\.\d+`, with a non-digit after the capture) is
  deterministic: each `\d+` must match a maximal digit run, so the embedding
  scans left to right and parses maximal runs.
* Python's `set` iterates in an unspecified order; the embedding keeps the
  distinct matches in first-insertion order.  No claim depends on the order,
  only on cardinality and membership.
-/

set_option autoImplicit false

/-- Split a character list at every occurrence of `sep` (the pieces do not
contain the separator; `n` separators yield `n + 1` pieces). -/
def splitOnChar (sep : Char) : List Char → List (List Char)
  | [] => [[]]
  | c :: rest =>
    if c == sep then [] :: splitOnChar sep rest
    else
      match splitOnChar sep rest with
      | [] => [[c]]
      | g :: gs => (c :: g) :: gs

/-- Python `str.splitlines` restricted to `\n` separators (the only line
terminator occurring in the subprocess output the script scans): split on
`\n` and drop the trailing empty piece produced by a terminating newline. -/
def pySplitlines (s : String) : List String :=
  let parts := (splitOnChar '\n' s.data).map String.mk
  if parts.getLast? == some "" then parts.dropLast else parts

/-- Python's substring test `needle in hay`, on character lists. -/
def containsSub (hay needle : List Char) : Bool :=
  needle.isPrefixOf hay ||
    (match hay with
     | [] => false
     | _ :: t => containsSub t needle)

/-- Parse `\d+\.\d+\.\d+` at the head of `cs` (each `\d+` a maximal ASCII
digit run, as regex backtracking forces when the next pattern element is a
non-digit).  Returns the matched characters and the remaining input. -/
def matchVer (cs : List Char) : Option (List Char × List Char) :=
  let d1 := cs.takeWhile Char.isDigit
  let r1 := cs.dropWhile Char.isDigit
  if d1.isEmpty then none else
  match r1 with
  | '.' :: r2 =>
    let d2 := r2.takeWhile Char.isDigit
    let r3 := r2.dropWhile Char.isDigit
    if d2.isEmpty then none else
    match r3 with
    | '.' :: r4 =>
      let d3 := r4.takeWhile Char.isDigit
      let r5 := r4.dropWhile Char.isDigit
      if d3.isEmpty then none else some (d1 ++ '.' :: d2 ++ '.' :: d3, r5)
    | _ => none
  | _ => none

/-- Try to match `pre(\d+\.\d+\.\d+)suf` at the current position, returning
the captured group. `pre` and `suf` are the literal texts the (escaped) regex
fragments of the source match. -/
def matchAt (pre suf cs : List Char) : Option (List Char) :=
  if pre.isPrefixOf cs then
    match matchVer (cs.drop pre.length) with
    | some (v, rest) => if suf.isPrefixOf rest then some v else none
    | none => none
  else none

/-- `re.search` for the pattern `pre(\d+\.\d+\.\d+)suf`: leftmost match,
scanning start positions left to right. -/
def searchVer (pre suf : List Char) : List Char → Option (List Char)
  | [] => matchAt pre suf []
  | c :: rest =>
    match matchAt pre suf (c :: rest) with
    | some v => some v
    | none => searchVer pre suf rest

/-- `extract_version_numbers` (source lines 63-71): run the search on every
line, accumulate the distinct captured version strings (the source uses a
Python `set`; the embedding keeps first-insertion order). -/
def extract_version_numbers (lines : List String) (pre suf : String) : List String :=
  lines.foldl
    (fun acc line =>
      match searchVer pre.data suf.data line.data with
      | some v =>
        let s := String.mk v
        if acc.contains s then acc else acc ++ [s]
      | none => acc)
    []

/-- Python `repr` of a list of strings, as an f-string formats it. -/
def pyListRepr (xs : List String) : String :=
  "[" ++ String.intercalate ", " (xs.map (fun s => "'" ++ s ++ "'")) ++ "]"

/-- Absolute-path components: split on `/`, dropping empty and `.` pieces
(pathlib collapses both). The walk in `has_write_access` and the
`Path(...).parent` operation act on this representation; `parent` is
`dropLast`, and the root is `[]`. -/
def strToPath (s : String) : List String :=
  ((splitOnChar '/' s.data).map String.mk).filter (fun c => !(c == "") && !(c == "."))

/-- `str(Path(p).parent)` for an absolute path `p`. -/
def dirname (p : String) : String :=
  "/" ++ String.intercalate "/" ((strToPath p).dropLast)

/-- The Python exceptions the script can raise or propagate. -/
inductive PyExc where
  /-- `RuntimeError(msg)`; `cause` names the exception it was raised `from`. -/
  | runtimeError (msg : String) (cause : Option String)
  /-- `subprocess.CalledProcessError` (from `check=True`), not caught anywhere. -/
  | calledProcessError (returncode : Nat)
  /-- CPython's error for reading a local variable before assignment. -/
  | unboundLocalError (varName : String)
  deriving Repr, DecidableEq

/-- Outcome of one `subprocess.run` invocation, supplied by the `World`. -/
inductive CmdResult where
  /-- The command ran and exited 0 with this standard output. -/
  | output (stdout : String)
  /-- The executable is absent (`FileNotFoundError`). -/
  | notFound
  /-- The command exited nonzero; `check=True` raises `CalledProcessError`. -/
  | exitedNonzero (returncode : Nat)
  deriving Repr, DecidableEq

/-- `find_libcxx_version.run_command` (source lines 52-61): return stdout on
success; wrap a missing executable into
`RuntimeError("Error: command \"<name>\" not found")`; let
`CalledProcessError` propagate. -/
def run_command (cmdName : String) (r : CmdResult) : Except PyExc String :=
  match r with
  | .output s => .ok s
  | .notFound =>
      .error (.runtimeError ("Error: command \"" ++ cmdName ++ "\" not found")
        (some "FileNotFoundError"))
  | .exitedNonzero c => .error (.calledProcessError c)

/-- What the filesystem reports about one path, for `find_real_path`. -/
structure FileInfo where
  pathExists : Bool
  isfile : Bool
  islink : Bool
  realpath : String
  deriving Repr, DecidableEq

/-- `find_real_path` (source lines 15-20): fail if the path does not exist,
fail if it is neither a regular file nor a symlink, else return the
canonical real path. -/
def find_real_path (fi : FileInfo) (path : String) : Except PyExc String :=
  if !fi.pathExists then
    .error (.runtimeError ("File does not exist: " ++ path) none)
  else if !fi.isfile && !fi.islink then
    .error (.runtimeError ("Path is not a real file or a link: " ++ path) none)
  else
    .ok fi.realpath

/-- The `while` loop of `download_file.has_write_access` (source lines 23-28),
with an explicit step index: each unsuccessful probe replaces the path by its
parent (`dropLast`), so after `p.length` steps the walk has reached the root
`[]`, whose parent is itself.  The index-0 case is therefore the root probe:
it returns `os.access(root, W_OK)` when the root exists, and `none` when it
does not — in Python the loop then repeats the root probe forever, so `none`
stands for that divergence. -/
def walkUpN (ex wr : List String → Bool) : Nat → List String → Option Bool
  | 0, p => if ex p then some (wr p) else none
  | n + 1, p => if ex p then some (wr p) else walkUpN ex wr n p.dropLast

/-- `download_file.has_write_access` (source lines 23-28): starting from the
destination path, return `os.access(q, W_OK)` for the first `q` on the parent
chain that exists; `none` when no path on the chain (root included) exists,
which is the case in which the Python loop never terminates. -/
def walkUp (ex wr : List String → Bool) (p : List String) : Option Bool :=
  walkUpN ex wr p.length p

/-- The chain of paths the walk visits up to the root, step-indexed like
`walkUpN`. -/
def ancChainN : Nat → List String → List (List String)
  | 0, p => [p]
  | n + 1, p => p :: ancChainN n p.dropLast

/-- The chain of paths the walk visits before reaching the root:
`[p, parent p, ..., root]`. -/
def ancChain (p : List String) : List (List String) :=
  ancChainN p.length p

/-- What the network does for this run's single fetch. -/
inductive FetchResult where
  | fetched
  | httpError (code : Nat) (reason : String)
  | urlError (reason : String)
  /-- The server did not respond within the 10-second timeout. -/
  | timeout
  | unexpected (msg : String)
  deriving Repr, DecidableEq

/-- Result of `download_file`: `False` (the permission-denied return),
`True` (file saved), a raised exception, or divergence of the
write-access walk. -/
inductive DlOutcome where
  | permissionDenied
  | saved
  | raisedErr (e : PyExc)
  | hang
  deriving Repr, DecidableEq

/-- Every effect the script observes in one run: the filesystem view used by
`find_real_path`, the exists/writable predicates the write-access walk
probes (on path components), the outcomes of the two subprocess invocations,
and the network's behaviour for the single fetch. -/
structure World where
  fs : String → FileInfo
  exists0 : List String → Bool
  writable : List String → Bool
  cmdGrep : CmdResult
  cmdDpkg : CmdResult
  fetch : FetchResult

/-- `download_file` (source lines 22-47): run the write-access walk; on
`False` return the permission-denied outcome with no fetch attempted;
otherwise create missing directories and fetch.  Each transport failure is
re-raised as the source's handlers do; the `TimeoutError` handler lacks
`as e` yet says `from e`, so CPython raises `UnboundLocalError` for `e`
there instead of the intended `RuntimeError`.  The second component records
whether `urlopen` was reached. -/
def download_file (w : World) (url : String) (file_path : String) :
    DlOutcome × Bool :=
  match walkUp w.exists0 w.writable (strToPath file_path) with
  | none => (.hang, false)
  | some false => (.permissionDenied, false)
  | some true =>
    match w.fetch with
    | .fetched => (.saved, true)
    | .httpError code reason =>
        (.raisedErr (.runtimeError
          ("HTTP Error: " ++ toString code ++ " " ++ reason ++ "\n'" ++ url ++ "'")
          (some "HTTPError")), true)
    | .urlError reason =>
        (.raisedErr (.runtimeError
          ("URL Error: " ++ reason ++ "\n'" ++ url ++ "'")
          (some "URLError")), true)
    | .timeout => (.raisedErr (.unboundLocalError "e"), true)
    | .unexpected msg =>
        (.raisedErr (.runtimeError
          ("An unexpected error occurred: " ++ msg) (some msg)), true)

/-- The zero/one/many policy of `find_libcxx_version.find_libcxx_so_version`
(source lines 80-91), applied to the already-split grep output: no distinct
version is a hard failure naming the marker and the scanned directory; more
than one distinct version is a hard failure listing all candidates; exactly
one is returned. -/
def so_version_from_lines (dir : String) (lines : List String) :
    Except PyExc String :=
  let versions := extract_version_numbers lines "set(LLVM_PACKAGE_VERSION " ")"
  if versions.length == 0 then
    .error (.runtimeError
      ("Unable to find \"LLVM_PACKAGE_VERSION\" in " ++ dir) none)
  else if !(versions.length == 1) then
    .error (.runtimeError
      ("Found more than one definition of \"LLVM_PACKAGE_VERSION\":\n\t" ++
        String.intercalate ", " versions) none)
  else
    .ok (versions.headD "")

/-- `find_libcxx_version.find_libcxx_so_version` (source lines 80-91):
resolve the shared object's real path, grep its directory for the
`LLVM_PACKAGE_VERSION` marker, and apply the zero/one/many policy.  The
source passes the regex-escaped literals `set\(LLVM_PACKAGE_VERSION ` and
`\)`; the embedding uses the literal texts they match. -/
def find_libcxx_so_version (w : World) (libcxx_so_path : String) :
    Except PyExc String :=
  match find_real_path (w.fs libcxx_so_path) libcxx_so_path with
  | .error e => .error e
  | .ok rp =>
    match run_command "grep" w.cmdGrep with
    | .error e => .error e
    | .ok out => so_version_from_lines (dirname rp) (pySplitlines out)

/-- `find_libcxx_version.find_installed_libcxx_package_versions` (source
lines 73-78): run `dpkg -l`, keep the lines containing the two-space-padded
family token `"  libc++"`, extract versions bracketed by `1:` and `~`. -/
def find_installed_libcxx_package_versions (w : World) :
    Except PyExc (List String) :=
  match run_command "dpkg" w.cmdDpkg with
  | .error e => .error e
  | .ok out =>
    .ok (extract_version_numbers
      ((pySplitlines out).filter (fun l => containsSub l.data "  libc++".data))
      "1:" "~")

/-- `find_libcxx_version` (source lines 51-97): extract the shared object's
version, then cross-check against the installed packages.  The dpkg
invocation is NOT guarded: any error it raises propagates and aborts.  A
mere mismatch only prints a warning (returned as the second component) and
still yields the extracted version. -/
def find_libcxx_version (w : World) (libcxx_so_path : String) :
    Except PyExc String × List String :=
  match find_libcxx_so_version w libcxx_so_path with
  | .error e => (.error e, [])
  | .ok v =>
    match find_installed_libcxx_package_versions w with
    | .error e => (.error e, [])
    | .ok pkgs =>
      if pkgs.contains v then (.ok v, [])
      else (.ok v,
        ["Warning: " ++ libcxx_so_path ++ " version found to be " ++ v ++
         ", does not match installed package versions: " ++ pyListRepr pkgs])

/-- Python truthiness of an argparse string option: `None` and the empty
string are falsy. -/
def truthy : Option String → Bool
  | none => false
  | some s => !(s == "")

/-- The membership test of source line 190,
`char.lower() in "_abcdefghijklmnopqrstuvwxyz0123456789"`, with Python's
Unicode `str.lower` folded in: the test holds exactly for the ASCII
alphanumerics, the underscore, the ASCII uppercase letters (which lower into
the alphabet), and U+212A KELVIN SIGN, the one further scalar whose Python
lowercase is a single character of the alphabet (it lowers to `k`; U+0130
lowers to the two-character string `i` + U+0307, and a two-character string
is never a substring of the alphabet). -/
def keepChar (c : Char) : Bool :=
  c.isAlphanum || c == '_' || c == Char.ofNat 0x212A

/-- One character of the sanitizing comprehension of source lines 189-191. -/
def sanChar (c : Char) : Char :=
  if keepChar c then c else '_'

/-- The `SanitizedSuffix` transform (source lines 189-191): keep a character
when its Python lowercase is in the alphabet, else replace it with `_`. -/
def sanitize_suffix (s : String) : String :=
  String.mk (s.data.map sanChar)

/-- Modelled from the spec's words only (for comparison with the code's
behaviour): membership in the alphabet `[A-Za-z0-9_]`. -/
def inSpecAlphabet (c : Char) : Bool :=
  c.isAlphanum || c == '_'

/-- The dictionary `parse_args` returns (source lines 193-198). -/
structure ParsedArgs where
  url : String
  file_name : String
  download_to : String
  libcxx_so_path : String
  deriving Repr, DecidableEq

/-- The selector chain of `parse_args` (source lines 175-187): first-match-
wins over tag, branch, commit; otherwise derive from the shared object's
version.  Returns the pair (url_middle, file_suffix) or the exception the
derived path raised, together with anything printed. -/
def select_ref (w : World) (tag branch commit : Option String)
    (libcxx_so : String) : Except PyExc (String × String) × List String :=
  if truthy tag then
    (.ok ("refs/tags/" ++ tag.getD "", "tag_" ++ tag.getD ""), [])
  else if truthy branch then
    (.ok ("refs/heads/" ++ branch.getD "", "branch_" ++ branch.getD ""), [])
  else if truthy commit then
    (.ok (commit.getD "", "commit_" ++ (commit.getD "").take 11), [])
  else
    match find_libcxx_version w libcxx_so with
    | (.error e, ws) => (.error e, ws)
    | (.ok v, ws) =>
      (.ok ("refs/tags/llvmorg-" ++ v, "tag_llvmorg_" ++ v), ws)

/-- `parse_args` (source lines 122-198) after argument parsing: choose the
selector, sanitize the suffix, and build the result dictionary, whose last
entry resolves the shared-object path through `find_real_path` regardless of
which selector branch ran. -/
def parse_args (w : World) (tag branch commit : Option String)
    (download_to libcxx_so : String) : Except PyExc ParsedArgs × List String :=
  match select_ref w tag branch commit libcxx_so with
  | (.error e, ws) => (.error e, ws)
  | (.ok (url_middle, file_suffix), ws) =>
    let fsuf := sanitize_suffix file_suffix
    match find_real_path (w.fs libcxx_so) libcxx_so with
    | .error e => (.error e, ws)
    | .ok rp =>
      (.ok { url := "https://raw.githubusercontent.com/llvm/llvm-project/" ++
               url_middle ++ "/libcxx/utils/gdb/libcxx/printers.py"
           , file_name := "libcxx_printers_" ++ fsuf
           , download_to := download_to
           , libcxx_so_path := rp }, ws)

/-- The destination path `main` assembles: `f"{download_to}/{file_name}.py"`
(source line 210). -/
def destPath (a : ParsedArgs) : String :=
  a.download_to ++ "/" ++ a.file_name ++ ".py"

/-- The auto-load path `main` writes (source line 217). -/
def autoLoadPath (libcxx_so_path : String) : String :=
  "/usr/share/gdb/auto-load" ++ libcxx_so_path ++ "-gdb.py"

/-- How one run ends. -/
inductive RunResult where
  /-- All steps succeeded; the process exits 0. -/
  | success
  /-- `download_file` returned `False`; `main` prints the diagnostic and
  calls `sys.exit(1)`. -/
  | permissionDenied
  /-- An exception propagated out of `main`; CPython exits nonzero. -/
  | uncaught (e : PyExc)
  /-- The write-access walk never terminated. -/
  | hang
  deriving Repr, DecidableEq

/-- The process exit status for each way a run can end (`none`: the process
never exits). -/
def exitCode : RunResult → Option Nat
  | .success => some 0
  | .permissionDenied => some 1
  | .uncaught _ => some 1
  | .hang => none

/-- Observable end state of one run: how it ended, everything printed to
standard output, and whether `urlopen` was ever reached. -/
structure RunOutcome where
  result : RunResult
  stdout : List String
  fetchAttempted : Bool
  deriving Repr, DecidableEq

/-- `main` (source lines 202-220): parse (which may already raise), build
the destination path, download, then print the success lines and write the
auto-load script (the final file write is modelled as succeeding). -/
def pyMain (w : World) (tag branch commit : Option String)
    (download_to libcxx_so : String) : RunOutcome :=
  match parse_args w tag branch commit download_to libcxx_so with
  | (.error e, ws) => ⟨.uncaught e, ws, false⟩
  | (.ok a, ws) =>
    match download_file w a.url (destPath a) with
    | (.hang, att) => ⟨.hang, ws, att⟩
    | (.permissionDenied, att) =>
        ⟨.permissionDenied,
         ws ++ ["Permission denied: '" ++ destPath a ++ "'"], att⟩
    | (.raisedErr e, att) => ⟨.uncaught e, ws, att⟩
    | (.saved, att) =>
        ⟨.success,
         ws ++ ["Successfully downloaded: '" ++ a.url ++ "'",
                "...and saved file to: '" ++ destPath a ++ "'",
                "Wrote GDB auto-load script to: '" ++
                  autoLoadPath a.libcxx_so_path ++ "'"], att⟩

/-- A healthy shared-object path as the filesystem reports it. -/
def fiOkSo : FileInfo :=
  ⟨true, true, false, "/usr/lib/x86_64-linux-gnu/libc++.so.1"⟩

/-- A run in which everything is in order: the shared object resolves, its
build metadata names version 18.1.0, dpkg knows that version, the root
exists and everything is writable, and the fetch succeeds. -/
def wBase : World where
  fs := fun _ => fiOkSo
  exists0 := fun p => p.isEmpty
  writable := fun _ => true
  cmdGrep := .output "set(LLVM_PACKAGE_VERSION 18.1.0)"
  cmdDpkg := .output "ii  libc++1-18:amd64  1:18.1.0~++20240229-1  amd64  LLVM C++ Standard library"
  fetch := .fetched

/-- The healthy run except that the `dpkg` executable is absent. -/
def wNoDpkg : World := { wBase with cmdDpkg := .notFound }

/-- The healthy run except that dpkg reports only version 19.0.0, which
disagrees with the extracted 18.1.0. -/
def wMismatch : World :=
  { wBase with cmdDpkg := .output "ii  libc++1-19:amd64  1:19.0.0~x  amd64  LLVM C++ Standard library" }

/-- The healthy run except that no directory is writable. -/
def wUnwritable : World := { wBase with writable := fun _ => false }

/-- The healthy run except that the server never answers within the
timeout. -/
def wTimeout : World := { wBase with fetch := .timeout }

/-- The healthy run except that the shared-object path does not exist. -/
def wNoSo : World := { wBase with fs := fun _ => ⟨false, false, false, ""⟩ }

/-- The healthy run except that the shared-object path exists but is neither
a regular file nor a symlink (say, a directory). -/
def wSoIsDir : World := { wBase with fs := fun _ => ⟨true, false, false, ""⟩ }

/-- Existence predicate for the walk examples: only the root exists. -/
def exRootOnly : List String → Bool := fun p => p.isEmpty

/-- Writability predicate for the walk examples: nothing is writable. -/
def wrNever : List String → Bool := fun _ => false

/-- The result dictionary of end-to-end scenario A. -/
def scenarioAArgs : ParsedArgs :=
  { url := "https://raw.githubusercontent.com/llvm/llvm-project/refs/tags/llvmorg-18.1.0/libcxx/utils/gdb/libcxx/printers.py"
  , file_name := "libcxx_printers_tag_llvmorg_18_1_0"
  , download_to := "/tmp/x"
  , libcxx_so_path := "/usr/lib/x86_64-linux-gnu/libc++.so.1" }

/-- The result dictionary of a run with override tag `v`, download directory
`/tmp/x` and shared object `/so` (as resolved by `wBase`-family worlds). -/
def tagVArgs : ParsedArgs :=
  { url := "https://raw.githubusercontent.com/llvm/llvm-project/refs/tags/v/libcxx/utils/gdb/libcxx/printers.py"
  , file_name := "libcxx_printers_tag_v"
  , download_to := "/tmp/x"
  , libcxx_so_path := "/usr/lib/x86_64-linux-gnu/libc++.so.1" }

/-! ## Helper lemmas -/

theorem walkUp_nil (ex wr : List String → Bool) :
    walkUp ex wr [] = if ex [] then some (wr []) else none := rfl

theorem walkUp_cons (ex wr : List String → Bool) (a : String) (as : List String) :
    walkUp ex wr (a :: as) =
      if ex (a :: as) then some (wr (a :: as))
      else walkUp ex wr (a :: as).dropLast := by
  show (if ex (a :: as) then some (wr (a :: as))
        else walkUpN ex wr as.length (a :: as).dropLast) = _
  rw [walkUp, show (a :: as).dropLast.length = as.length by simp]

theorem ancChain_nil : ancChain [] = [[]] := rfl

theorem ancChain_cons (a : String) (as : List String) :
    ancChain (a :: as) = (a :: as) :: ancChain (a :: as).dropLast := by
  show (a :: as) :: ancChainN as.length (a :: as).dropLast = _
  rw [ancChain, show (a :: as).dropLast.length = as.length by simp]

theorem find_real_path_ok (fi : FileInfo) (p r : String)
    (h : find_real_path fi p = .ok r) : r = fi.realpath := by
  unfold find_real_path at h
  split at h
  · exact absurd h (by simp)
  · split at h
    · exact absurd h (by simp)
    · injection h with h
      exact h.symm

/-! ## Claim theorems -/

/-- C10: an override supplied as the empty string is Python-falsy, so it is
treated exactly as an absent override: with `tag = ""` (and likewise
`branch = ""` or `commit = ""`) selection falls through to the next channel
in precedence order instead of producing a selector with an empty name. -/
theorem c10_empty_override_falls_through :
    (∀ (w : World) (br cm : Option String) (so : String),
      select_ref w (some "") br cm so = select_ref w none br cm so)
    ∧ (∀ (w : World) (tag cm : Option String) (so : String),
      select_ref w tag (some "") cm so = select_ref w tag none cm so)
    ∧ (∀ (w : World) (tag br : Option String) (so : String),
      select_ref w tag br (some "") so = select_ref w tag br none so) :=
  ⟨fun _ _ _ _ => rfl, fun _ _ _ _ => rfl, fun _ _ _ _ => rfl⟩

/-- C2: selector precedence is total and first-match-wins in the order tag,
branch, commit, derived.  A populated (non-empty) tag forces the tag variant
whatever the other channels hold; with tag unpopulated, a populated branch
forces the branch variant whatever commit holds; with tag and branch
unpopulated, a populated commit yields the commit verbatim as remote fragment
and the suffix `commit_` followed by exactly the first 11 characters of the
commit string. -/
theorem c2_selector_precedence :
    (∀ (w : World) (t : String) (br cm : Option String) (so : String),
      t ≠ "" →
      select_ref w (some t) br cm so =
        (.ok ("refs/tags/" ++ t, "tag_" ++ t), []))
    ∧ (∀ (w : World) (tag : Option String) (b : String) (cm : Option String)
        (so : String),
      truthy tag = false → b ≠ "" →
      select_ref w tag (some b) cm so =
        (.ok ("refs/heads/" ++ b, "branch_" ++ b), []))
    ∧ (∀ (w : World) (tag br : Option String) (c : String) (so : String),
      truthy tag = false → truthy br = false → c ≠ "" →
      select_ref w tag br (some c) so =
        (.ok (c, "commit_" ++ c.take 11), [])) := by
  refine ⟨?_, ?_, ?_⟩
  · intro w t br cm so ht
    have ht2 : truthy (some t) = true := by simp [truthy, ht]
    simp [select_ref, ht2]
  · intro w tag b cm so htag hb
    have hb2 : truthy (some b) = true := by simp [truthy, hb]
    simp [select_ref, htag, hb2]
  · intro w tag br c so htag hbr hc
    have hc2 : truthy (some c) = true := by simp [truthy, hc]
    simp [select_ref, htag, hbr, hc2]

/-- Witness for C2 at concrete inputs: all three channels populated gives the
tag variant; tag absent gives the branch variant; only commit populated gives
the 11-character commit suffix. -/
theorem c2_selector_precedence_witness :
    select_ref wBase (some "v1") (some "b1") (some "c1") "/so" =
      (.ok ("refs/tags/v1", "tag_v1"), [])
    ∧ select_ref wBase none (some "b1") (some "c1") "/so" =
      (.ok ("refs/heads/b1", "branch_b1"), [])
    ∧ select_ref wBase none none (some "0123456789abcdef") "/so" =
      (.ok ("0123456789abcdef", "commit_0123456789a"), []) :=
  ⟨c2_selector_precedence.1 wBase "v1" (some "b1") (some "c1") "/so" (by decide),
   c2_selector_precedence.2.1 wBase none "b1" (some "c1") "/so" rfl (by decide),
   c2_selector_precedence.2.2 wBase none none "0123456789abcdef" "/so" rfl rfl
     (by decide)⟩

/-- C6: with override tag `llvmorg-18.1.0` and download directory `/tmp/x`,
resolution produces remote fragment `refs/tags/llvmorg-18.1.0` inside the
fixed base URL template with the fixed trailing printers-resource path, and
the destination file is `/tmp/x/libcxx_printers_tag_llvmorg_18_1_0.py`. -/
theorem c6_scenario_a :
    parse_args wBase (some "llvmorg-18.1.0") none none "/tmp/x"
        "/usr/lib/x86_64-linux-gnu/libc++.so.1" = (.ok scenarioAArgs, [])
    ∧ destPath scenarioAArgs = "/tmp/x/libcxx_printers_tag_llvmorg_18_1_0.py" :=
  ⟨rfl, rfl⟩

/-- C7 (code bug): on a fetch timeout the handler at source line 44 reads the
name `e` without binding it (`except TimeoutError:` has no `as e`, yet the
handler says `from e`), so the run raises `UnboundLocalError` for `e` — the
intended `RuntimeError` naming the URL and chaining the timeout exception is
never constructed.  The HTTP-level and network-level handlers, by contrast,
do surface the URL and the underlying cause. -/
theorem c7_timeout_handler_bug :
    (download_file wTimeout
        "https://raw.githubusercontent.com/llvm/llvm-project/refs/tags/llvmorg-18.1.0/libcxx/utils/gdb/libcxx/printers.py"
        "/tmp/x/libcxx_printers_tag_llvmorg_18_1_0.py").1
      = .raisedErr (.unboundLocalError "e")
    ∧ (download_file { wBase with fetch := .httpError 404 "Not Found" }
        "https://u" "/tmp/x/f.py").1
      = .raisedErr (.runtimeError "HTTP Error: 404 Not Found\n'https://u'"
          (some "HTTPError"))
    ∧ (download_file { wBase with fetch := .urlError "Name or service not known" }
        "https://u" "/tmp/x/f.py").1
      = .raisedErr (.runtimeError
          "URL Error: Name or service not known\n'https://u'" (some "URLError")) :=
  ⟨rfl, rfl, rfl⟩

/-- C1 counterexample: with the grep evidence yielding exactly version
18.1.0 but the `dpkg` executable absent, evidence extraction succeeds yet
`find_libcxx_version` — and with it the whole derived-path resolution —
returns the command-not-found error instead of the derived selector for
18.1.0: the missing cross-check tool DOES abort version resolution, because
nothing catches the error `run_command` raises for dpkg. -/
theorem c1_counterexample :
    find_libcxx_so_version wNoDpkg "/usr/lib/x86_64-linux-gnu/libc++.so.1"
      = .ok "18.1.0"
    ∧ (find_libcxx_version wNoDpkg "/usr/lib/x86_64-linux-gnu/libc++.so.1").1
      = .error (.runtimeError "Error: command \"dpkg\" not found"
          (some "FileNotFoundError"))
    ∧ (parse_args wNoDpkg none none none "/tmp/x"
        "/usr/lib/x86_64-linux-gnu/libc++.so.1").1
      = .error (.runtimeError "Error: command \"dpkg\" not found"
          (some "FileNotFoundError")) :=
  ⟨rfl, rfl, rfl⟩

/-- C1 amended: when evidence extraction has succeeded with version `v`, an
absent `dpkg` tool makes `find_libcxx_version` fail with the
command-not-found error (the run aborts); the cross-check is advisory only
when the tool runs — if `dpkg -l` produces output, resolution returns `v`
whatever that output contains, a mismatch merely warning. -/
theorem c1_dpkg_absent_aborts_resolution (w : World) (so v : String)
    (hso : find_libcxx_so_version w so = .ok v) :
    (w.cmdDpkg = .notFound →
      (find_libcxx_version w so).1 =
        .error (.runtimeError "Error: command \"dpkg\" not found"
          (some "FileNotFoundError")))
    ∧ (∀ out, w.cmdDpkg = .output out → (find_libcxx_version w so).1 = .ok v) := by
  constructor
  · intro hd
    simp [find_libcxx_version, hso, find_installed_libcxx_package_versions, hd,
      run_command]
  · intro out hd
    simp only [find_libcxx_version, hso, find_installed_libcxx_package_versions,
      hd, run_command]
    split <;> rfl

/-- Witness for C1 amended: the dpkg-absent half at `wNoDpkg`, the
advisory-mismatch half at `wMismatch` (whose dpkg output names only version
19.0.0, disagreeing with the extracted 18.1.0). -/
theorem c1_dpkg_absent_aborts_resolution_witness :
    (find_libcxx_version wNoDpkg "/usr/lib/x86_64-linux-gnu/libc++.so.1").1
      = .error (.runtimeError "Error: command \"dpkg\" not found"
          (some "FileNotFoundError"))
    ∧ (find_libcxx_version wMismatch "/usr/lib/x86_64-linux-gnu/libc++.so.1").1
      = .ok "18.1.0" :=
  ⟨(c1_dpkg_absent_aborts_resolution wNoDpkg
      "/usr/lib/x86_64-linux-gnu/libc++.so.1" "18.1.0" rfl).1 rfl,
   (c1_dpkg_absent_aborts_resolution wMismatch
      "/usr/lib/x86_64-linux-gnu/libc++.so.1" "18.1.0" rfl).2
      "ii  libc++1-19:amd64  1:19.0.0~x  amd64  LLVM C++ Standard library" rfl⟩

/-- C4: the zero/one/many policy on the distinct version strings scanned
under the `LLVM_PACKAGE_VERSION` marker.  Exactly one distinct match is
returned; zero matches fail with the hard error naming the marker and the
scanned directory; two or more distinct matches fail with the hard error
listing every candidate — a candidate is never silently picked. -/
theorem c4_version_evidence_policy (dir : String) (lines : List String) :
    (∀ v, extract_version_numbers lines "set(LLVM_PACKAGE_VERSION " ")" = [v] →
      so_version_from_lines dir lines = .ok v)
    ∧ (extract_version_numbers lines "set(LLVM_PACKAGE_VERSION " ")" = [] →
      so_version_from_lines dir lines =
        .error (.runtimeError
          ("Unable to find \"LLVM_PACKAGE_VERSION\" in " ++ dir) none))
    ∧ (∀ v1 v2 rest,
      extract_version_numbers lines "set(LLVM_PACKAGE_VERSION " ")"
        = v1 :: v2 :: rest →
      so_version_from_lines dir lines =
        .error (.runtimeError
          ("Found more than one definition of \"LLVM_PACKAGE_VERSION\":\n\t" ++
            String.intercalate ", " (v1 :: v2 :: rest)) none)) := by
  refine ⟨?_, ?_, ?_⟩
  · intro v h
    simp [so_version_from_lines, h]
  · intro h
    simp [so_version_from_lines, h]
  · intro v1 v2 rest h
    simp [so_version_from_lines, h]

/-- Witness for C4 at concrete scanned lines: one match returns it, zero
matches report the marker and directory, two distinct matches list both. -/
theorem c4_version_evidence_policy_witness :
    so_version_from_lines "/usr/lib/x86_64-linux-gnu"
        ["set(LLVM_PACKAGE_VERSION 18.1.0)"] = .ok "18.1.0"
    ∧ so_version_from_lines "/usr/lib/x86_64-linux-gnu" ["no marker here"] =
        .error (.runtimeError
          "Unable to find \"LLVM_PACKAGE_VERSION\" in /usr/lib/x86_64-linux-gnu"
          none)
    ∧ so_version_from_lines "/usr/lib/x86_64-linux-gnu"
        ["set(LLVM_PACKAGE_VERSION 18.1.0)", "set(LLVM_PACKAGE_VERSION 19.0.0)"] =
        .error (.runtimeError
          "Found more than one definition of \"LLVM_PACKAGE_VERSION\":\n\t18.1.0, 19.0.0"
          none) :=
  ⟨(c4_version_evidence_policy "/usr/lib/x86_64-linux-gnu"
      ["set(LLVM_PACKAGE_VERSION 18.1.0)"]).1 "18.1.0" rfl,
   (c4_version_evidence_policy "/usr/lib/x86_64-linux-gnu"
      ["no marker here"]).2.1 rfl,
   (c4_version_evidence_policy "/usr/lib/x86_64-linux-gnu"
      ["set(LLVM_PACKAGE_VERSION 18.1.0)", "set(LLVM_PACKAGE_VERSION 19.0.0)"]).2.2
      "18.1.0" "19.0.0" [] rfl⟩

theorem sanChar_idem (c : Char) : sanChar (sanChar c) = sanChar c := by
  by_cases h : keepChar c = true
  · simp [sanChar, h]
  · simp [sanChar, h]

theorem keepChar_implies_spec (c : Char) (h : keepChar c = true) :
    inSpecAlphabet c = true ∨ c = Char.ofNat 0x212A := by
  simp only [keepChar, Bool.or_eq_true, beq_iff_eq] at h
  simp only [inSpecAlphabet, Bool.or_eq_true, beq_iff_eq]
  tauto

/-- C5 counterexample: on the one-character input U+212A KELVIN SIGN, the
transform keeps the character unchanged (Python lowercases U+212A to `k`,
which is in the alphabet string), so the output is not drawn from
`[A-Za-z0-9_]` and the out-of-alphabet character was not replaced by `_`. -/
theorem c5_counterexample :
    sanitize_suffix (String.mk [Char.ofNat 0x212A]) = String.mk [Char.ofNat 0x212A]
    ∧ ((sanitize_suffix (String.mk [Char.ofNat 0x212A])).data.all inSpecAlphabet)
        = false :=
  ⟨rfl, rfl⟩

/-- C5 amended: the transform is idempotent for every input string, and every
character of the output is drawn from `[A-Za-z0-9_]` extended with U+212A
KELVIN SIGN — the Kelvin sign being the single scalar outside the alphabet
whose Python lowercase lands in it, hence the single out-of-alphabet
character that is kept rather than replaced by `_`. -/
theorem c5_sanitize_idempotent_alphabet (s : String) :
    sanitize_suffix (sanitize_suffix s) = sanitize_suffix s
    ∧ ∀ c ∈ (sanitize_suffix s).data,
        inSpecAlphabet c = true ∨ c = Char.ofNat 0x212A := by
  constructor
  · show String.mk ((s.data.map sanChar).map sanChar) = String.mk (s.data.map sanChar)
    congr 1
    induction s.data with
    | nil => rfl
    | cons c t ih => simp [ih, sanChar_idem c]
  · intro c hc
    have h2 : c ∈ s.data.map sanChar := hc
    rcases List.mem_map.mp h2 with ⟨c0, _, rfl⟩
    by_cases h : keepChar c0 = true
    · simpa [sanChar, h] using keepChar_implies_spec c0 h
    · left
      simp [sanChar, h, inSpecAlphabet]

/-- Witness for C5 amended at the concrete suffix fragment of scenario A. -/
theorem c5_sanitize_idempotent_alphabet_witness :
    sanitize_suffix (sanitize_suffix "tag_llvmorg-18.1.0")
      = sanitize_suffix "tag_llvmorg-18.1.0"
    ∧ (inSpecAlphabet 't' = true ∨ 't' = Char.ofNat 0x212A) :=
  ⟨(c5_sanitize_idempotent_alphabet "tag_llvmorg-18.1.0").1,
   (c5_sanitize_idempotent_alphabet "tag_llvmorg-18.1.0").2 't' (by decide)⟩

/-- C3: whenever the nearest existing ancestor of the destination path is not
writable, `download_file` returns the permission-denied outcome without ever
reaching `urlopen`, and `main` then prints the diagnostic naming the
destination file and exits with status 1. -/
theorem c3_permission_precheck (w : World) (tag branch commit : Option String)
    (download_to libcxx_so : String) (a : ParsedArgs) (ws : List String)
    (hparse : parse_args w tag branch commit download_to libcxx_so = (.ok a, ws))
    (hwalk : walkUp w.exists0 w.writable (strToPath (destPath a)) = some false) :
    (download_file w a.url (destPath a)).1 = .permissionDenied
    ∧ (download_file w a.url (destPath a)).2 = false
    ∧ (pyMain w tag branch commit download_to libcxx_so).result
        = .permissionDenied
    ∧ (pyMain w tag branch commit download_to libcxx_so).fetchAttempted = false
    ∧ ("Permission denied: '" ++ destPath a ++ "'")
        ∈ (pyMain w tag branch commit download_to libcxx_so).stdout
    ∧ exitCode (pyMain w tag branch commit download_to libcxx_so).result
        = some 1 := by
  have hdl : download_file w a.url (destPath a) = (.permissionDenied, false) := by
    unfold download_file
    rw [hwalk]
  have hmain : pyMain w tag branch commit download_to libcxx_so =
      ⟨.permissionDenied, ws ++ ["Permission denied: '" ++ destPath a ++ "'"],
       false⟩ := by
    unfold pyMain
    simp only [hparse, hdl]
  refine ⟨by rw [hdl], by rw [hdl], by rw [hmain], by rw [hmain], ?_,
    by rw [hmain]; rfl⟩
  rw [hmain]
  simp

/-- Witness for C3: a run whose world makes nothing writable (only the root
exists and `os.access` denies it). -/
theorem c3_permission_precheck_witness :
    (pyMain wUnwritable (some "v") none none "/tmp/x" "/so").result
        = .permissionDenied
    ∧ (pyMain wUnwritable (some "v") none none "/tmp/x" "/so").fetchAttempted
        = false
    ∧ ("Permission denied: '" ++ destPath tagVArgs ++ "'")
        ∈ (pyMain wUnwritable (some "v") none none "/tmp/x" "/so").stdout
    ∧ exitCode (pyMain wUnwritable (some "v") none none "/tmp/x" "/so").result
        = some 1 := by
  have h := c3_permission_precheck wUnwritable (some "v") none none "/tmp/x"
    "/so" tagVArgs [] rfl rfl
  exact ⟨h.2.2.1, h.2.2.2.1, h.2.2.2.2.1, h.2.2.2.2.2⟩

theorem select_ref_tag (w : World) (tag branch commit : Option String)
    (so : String) (h1 : truthy tag = true) :
    select_ref w tag branch commit so =
      (.ok ("refs/tags/" ++ tag.getD "", "tag_" ++ tag.getD ""), []) := by
  simp [select_ref, h1]

theorem select_ref_branch (w : World) (tag branch commit : Option String)
    (so : String) (h1 : truthy tag = false) (h2 : truthy branch = true) :
    select_ref w tag branch commit so =
      (.ok ("refs/heads/" ++ branch.getD "", "branch_" ++ branch.getD ""), []) := by
  simp [select_ref, h1, h2]

theorem select_ref_commit (w : World) (tag branch commit : Option String)
    (so : String) (h1 : truthy tag = false) (h2 : truthy branch = false)
    (h3 : truthy commit = true) :
    select_ref w tag branch commit so =
      (.ok (commit.getD "", "commit_" ++ (commit.getD "").take 11), []) := by
  simp [select_ref, h1, h2, h3]

theorem select_ref_derived (w : World) (tag branch commit : Option String)
    (so : String) (h1 : truthy tag = false) (h2 : truthy branch = false)
    (h3 : truthy commit = false) :
    select_ref w tag branch commit so =
      (match find_libcxx_version w so with
       | (.error e, ws) => (.error e, ws)
       | (.ok v, ws) =>
         (.ok ("refs/tags/llvmorg-" ++ v, "tag_llvmorg_" ++ v), ws)) := by
  simp [select_ref, h1, h2, h3]

theorem parse_args_error_of_bad_so (w : World)
    (tag branch commit : Option String) (download_to so : String) (e : PyExc)
    (hfr : find_real_path (w.fs so) so = .error e) :
    parse_args w tag branch commit download_to so = (.error e, []) := by
  have hflv : find_libcxx_version w so = (.error e, []) := by
    unfold find_libcxx_version find_libcxx_so_version
    rw [hfr]
  unfold parse_args
  cases h1 : truthy tag with
  | true => simp only [select_ref_tag w tag branch commit so h1, hfr]
  | false =>
    cases h2 : truthy branch with
    | true => simp only [select_ref_branch w tag branch commit so h1 h2, hfr]
    | false =>
      cases h3 : truthy commit with
      | true =>
        simp only [select_ref_commit w tag branch commit so h1 h2 h3, hfr]
      | false =>
        simp only [select_ref_derived w tag branch commit so h1 h2 h3, hflv]

theorem parse_args_ok_realpath (w : World) (tag branch commit : Option String)
    (download_to so : String) (a : ParsedArgs) (ws : List String)
    (hp : parse_args w tag branch commit download_to so = (.ok a, ws)) :
    a.libcxx_so_path = (w.fs so).realpath := by
  unfold parse_args at hp
  split at hp
  · exact absurd hp (by simp)
  · split at hp
    · exact absurd hp (by simp)
    · rename_i heq
      simp only [Prod.mk.injEq, Except.ok.injEq] at hp
      obtain ⟨h2, -⟩ := hp
      rw [← h2]
      exact find_real_path_ok _ _ _ heq

/-- C9: on every run — whichever override channels are populated, including
runs where an explicit tag, branch, or commit override short-circuits
evidence extraction, and the derived path itself — the source-library path
is resolved through `find_real_path` before any fetch: a non-existent path
fails the run with the not-found error and a path that is neither regular
file nor symlink fails it with the not-a-real-file error, in both cases
with no fetch attempted; and whenever `parse_args` succeeds, the dictionary
carries the canonical real path the filesystem reported.  (On the override
branches the resolution happens while building the result dictionary; on
the derived branch the same `find_real_path` check already guards evidence
extraction, raising the same error.) -/
theorem c9_so_path_resolved_despite_override (w : World)
    (tag branch commit : Option String) (download_to so : String) :
    ((w.fs so).pathExists = false →
      pyMain w tag branch commit download_to so =
        ⟨.uncaught (.runtimeError ("File does not exist: " ++ so) none),
         [], false⟩)
    ∧ ((w.fs so).pathExists = true → (w.fs so).isfile = false →
        (w.fs so).islink = false →
      pyMain w tag branch commit download_to so =
        ⟨.uncaught (.runtimeError ("Path is not a real file or a link: " ++ so)
            none), [], false⟩)
    ∧ (∀ a ws, parse_args w tag branch commit download_to so = (.ok a, ws) →
        a.libcxx_so_path = (w.fs so).realpath) := by
  refine ⟨?_, ?_, ?_⟩
  · intro h1
    have hfr : find_real_path (w.fs so) so =
        .error (.runtimeError ("File does not exist: " ++ so) none) := by
      simp [find_real_path, h1]
    have hp := parse_args_error_of_bad_so w tag branch commit download_to so
      _ hfr
    unfold pyMain
    simp only [hp]
  · intro h1 h2 h3
    have hfr : find_real_path (w.fs so) so =
        .error (.runtimeError ("Path is not a real file or a link: " ++ so)
          none) := by
      simp [find_real_path, h1, h2, h3]
    have hp := parse_args_error_of_bad_so w tag branch commit download_to so
      _ hfr
    unfold pyMain
    simp only [hp]
  · intro a ws hp
    exact parse_args_ok_realpath w tag branch commit download_to so a ws hp

/-- Witness for C9, one conjunct per override channel the claim names: the
not-found case on a branch-only run, the not-a-regular-file case on a
commit-only run, and the resolved-path conjunct on a derived (no-override)
run. -/
theorem c9_so_path_resolved_despite_override_witness :
    pyMain wNoSo none (some "br") none "/tmp/x" "/no/such" =
      ⟨.uncaught (.runtimeError "File does not exist: /no/such" none), [], false⟩
    ∧ pyMain wSoIsDir none none (some "0123456789abcdef") "/tmp/x" "/some/dir" =
      ⟨.uncaught (.runtimeError "Path is not a real file or a link: /some/dir"
          none), [], false⟩
    ∧ scenarioAArgs.libcxx_so_path =
        (wBase.fs "/usr/lib/x86_64-linux-gnu/libc++.so.1").realpath :=
  ⟨(c9_so_path_resolved_despite_override wNoSo none (some "br") none "/tmp/x"
      "/no/such").1 rfl,
   (c9_so_path_resolved_despite_override wSoIsDir none none
      (some "0123456789abcdef") "/tmp/x" "/some/dir").2.1 rfl rfl rfl,
   (c9_so_path_resolved_despite_override wBase none none none "/tmp/x"
      "/usr/lib/x86_64-linux-gnu/libc++.so.1").2.2 scenarioAArgs [] rfl⟩

/-- C8 counterexample: the walk does not reach an answer for every
destination path — when no path on the parent chain exists (not even the
root, as happens in Python e.g. for a relative destination after the working
directory has been deleted), the loop never terminates, embedded here as
`none`. -/
theorem c8_counterexample :
    walkUp (fun _ => false) (fun _ => true)
      (strToPath "/tmp/x/printers.py") = none :=
  rfl

/-- C8 amended: the write-access walk terminates for every destination path
whose parent chain contains at least one existing directory (the chain is
finite, ending at the root): it returns `none` exactly when no chain element
exists, and whenever it returns an answer, that answer is the writability of
the first existing path on the chain — every chain element probed before it
does not exist. -/
theorem c8_walk_reaches_nearest_existing_ancestor
    (ex wr : List String → Bool) (p : List String) :
    (walkUp ex wr p = none ↔ ∀ q ∈ ancChain p, ex q = false)
    ∧ (∀ b, walkUp ex wr p = some b →
        ∃ l1 q l2, ancChain p = l1 ++ q :: l2 ∧ (∀ r ∈ l1, ex r = false)
          ∧ ex q = true ∧ b = wr q) := by
  suffices H : ∀ (n : Nat) (q : List String), q.length ≤ n →
      ((walkUp ex wr q = none ↔ ∀ r ∈ ancChain q, ex r = false)
       ∧ (∀ b, walkUp ex wr q = some b →
          ∃ l1 r l2, ancChain q = l1 ++ r :: l2 ∧ (∀ x ∈ l1, ex x = false)
            ∧ ex r = true ∧ b = wr r)) by
    exact H p.length p le_rfl
  have hnil : ∀ _u : Unit,
      (walkUp ex wr [] = none ↔ ∀ r ∈ ancChain [], ex r = false)
      ∧ (∀ b, walkUp ex wr [] = some b →
          ∃ l1 r l2, ancChain ([] : List String) = l1 ++ r :: l2
            ∧ (∀ x ∈ l1, ex x = false) ∧ ex r = true ∧ b = wr r) := by
    intro _u
    rw [walkUp_nil, ancChain_nil]
    by_cases h : ex [] = true
    · constructor
      · rw [if_pos h]
        constructor
        · intro hc
          exact absurd hc (by simp)
        · intro hall
          exact absurd (hall [] (by simp)) (by simp [h])
      · intro b hb
        rw [if_pos h] at hb
        refine ⟨[], [], [], by simp, by simp, h, ?_⟩
        injection hb with hb
        exact hb.symm
    · have h0 : ex [] = false := by simpa using h
      constructor
      · rw [if_neg (by simp [h0])]
        simp [h0]
      · intro b hb
        rw [if_neg (by simp [h0])] at hb
        cases hb
  intro n
  induction n with
  | zero =>
    intro q hq
    match q with
    | [] => exact hnil ()
    | a :: as => simp at hq
  | succ n ih =>
    intro q hq
    match q with
    | [] => exact hnil ()
    | a :: as =>
      have hlen : (a :: as).dropLast.length ≤ n := by
        simp only [List.length_dropLast, List.length_cons] at hq ⊢
        omega
      have IH := ih ((a :: as).dropLast) hlen
      by_cases hx : ex (a :: as) = true
      · constructor
        · rw [walkUp_cons, if_pos hx]
          constructor
          · intro hc
            exact absurd hc (by simp)
          · intro hall
            exact absurd (hall (a :: as) (by rw [ancChain_cons]; simp))
              (by simp [hx])
        · intro b hb
          rw [walkUp_cons, if_pos hx] at hb
          refine ⟨[], a :: as, ancChain ((a :: as).dropLast),
            by rw [ancChain_cons]; rfl, by simp, hx, ?_⟩
          injection hb with hb
          exact hb.symm
      · have hx0 : ex (a :: as) = false := by simpa using hx
        constructor
        · rw [walkUp_cons, if_neg (by simp [hx0]), ancChain_cons, IH.1]
          constructor
          · intro hall r hr
            rcases List.mem_cons.mp hr with hr1 | hr2
            · rw [hr1]
              exact hx0
            · exact hall r hr2
          · intro hall r hr
            exact hall r (List.mem_cons_of_mem _ hr)
        · intro b hb
          rw [walkUp_cons, if_neg (by simp [hx0])] at hb
          rcases IH.2 b hb with ⟨l1, r, l2, hchain, hpre, hr, hbr⟩
          refine ⟨(a :: as) :: l1, r, l2, by rw [ancChain_cons, hchain]; rfl,
            ?_, hr, hbr⟩
          intro x hxm
          rcases List.mem_cons.mp hxm with hx1 | hx2
          · rw [hx1]
            exact hx0
          · exact hpre x hx2

/-- Witness for C8 amended: on the path whose chain is
`[["a"], []]` with only the root existing and nothing writable, the walk
answers `false` and the decomposition names the root as the first existing
ancestor. -/
theorem c8_walk_reaches_nearest_existing_ancestor_witness :
    ∃ l1 q l2, ancChain ["a"] = l1 ++ q :: l2
      ∧ (∀ r ∈ l1, exRootOnly r = false) ∧ exRootOnly q = true
      ∧ false = wrNever q :=
  (c8_walk_reaches_nearest_existing_ancestor exRootOnly wrNever ["a"]).2
    false rfl
